import Mathlib

/-!
Verification development for the music-therapy ML pipeline
(`src/pipeline/pipeline.py`). The Python module is shallowly embedded:
the capability registry (`DEPENDENCIES`) becomes a record of booleans,
each pipeline step becomes a function from the registry and its inputs
to an `Except`-valued result together with the list of filesystem
operations the step performs, and the pipeline graph becomes a
sequential composition of the step functions. Library internals that
the spec places out of scope (the statistics of `make_classification`,
random-forest training, the mlflow wire protocol) are abstracted to
parameters or to the staged guards that decide success and failure;
everything that decides a claim (branch structure, import order,
return shapes, write order, issue ordering) is translated from the
source line by line.
-/

/-- The capability registry `DEPENDENCIES` of `pipeline.py`: one availability
flag per optional subsystem (mlflow = tracking service, sklearn = classical-ML
engine, pandas = tabular engine, numpy = numeric engine, kfp = cluster SDK). -/
structure Deps where
  mlflow : Bool
  sklearn : Bool
  pandas : Bool
  numpy : Bool
  kfp : Bool
deriving DecidableEq

/-- The registry `check_and_import_dependencies` produces: pandas and numpy are
probed inside one try block (lines 116-127), so their flags are always equal. -/
def check_and_import_dependencies (mlflowOk sklearnOk pandasNumpyOk kfpOk : Bool) : Deps :=
  { mlflow := mlflowOk, sklearn := sklearnOk, pandas := pandasNumpyOk,
    numpy := pandasNumpyOk, kfp := kfpOk }

/-- The quality metrics of a tabular artifact that `validate_data_quality`
inspects (lines 269-278): row count, column count, total missing values and
duplicate rows. -/
structure DataFrameMeta where
  n_rows : Nat
  n_columns : Nat
  missing_values : Nat
  duplicate_rows : Nat
deriving DecidableEq

/-- Status of a quality report (line 264 and line 292). -/
inductive QStatus
  | passed
  | warning
  | skipped
deriving DecidableEq

/-- The part of the dictionary `validate_data_quality` returns that the claims
are about. In the skipped branch the Python dictionary carries no issues key;
that is modelled as the empty list. -/
structure QualityReport where
  status : QStatus
  issues : List String
deriving DecidableEq

/-- The quality gate `validate_data_quality` (lines 260-299). When pandas is
absent it returns status skipped without raising (line 264); otherwise it
appends issues in the source order missing values, duplicate rows, low sample
count with threshold 100 (lines 281-289) and sets status passed or warning
from emptiness of the issue list (line 292). The function is total: the gate
never raises. -/
def validate_data_quality (pandasAvailable : Bool) (df : DataFrameMeta) : QualityReport :=
  if !pandasAvailable then { status := QStatus.skipped, issues := [] }
  else
    let issues0 : List String := []
    let issues1 := if 0 < df.missing_values
      then issues0 ++ ["Missing values: " ++ toString df.missing_values] else issues0
    let issues2 := if 0 < df.duplicate_rows
      then issues1 ++ ["Duplicate rows: " ++ toString df.duplicate_rows] else issues1
    let issues3 := if df.n_rows < 100
      then issues2 ++ ["Low sample count: " ++ toString df.n_rows] else issues2
    { status := if issues3.isEmpty then QStatus.passed else QStatus.warning,
      issues := issues3 }

/-- One structured log line of the step executor `error_handler`
(lines 210-222). Only the success line (line 218) interpolates the elapsed
duration; the failure line (line 220) interpolates the step name and the
string of the exception, and line 221 logs the traceback. -/
inductive LogMsg
  | startMsg (step : String)
  | doneMsg (step : String) (durationSeconds : Nat)
  | failMsg (step : String) (err : String)
  | tracebackMsg
deriving DecidableEq

/-- The step executor `error_handler` (lines 210-222): the wrapped body is an
`Except` value (the exception it raises, or its result), `elapsed` the wall
time the body consumed. Returns the log lines emitted and the outcome the
caller observes; in the except branch the source logs and then re-raises the
caught exception with a bare raise. -/
def error_handler {A : Type} (step : String) (elapsed : Nat) (body : Except String A) :
    List LogMsg × Except String A :=
  match body with
  | Except.ok a => ([LogMsg.startMsg step, LogMsg.doneMsg step elapsed], Except.ok a)
  | Except.error e =>
      ([LogMsg.startMsg step, LogMsg.failMsg step e, LogMsg.tracebackMsg], Except.error e)

/-- Whether a log line carries an elapsed duration (only the success line of
`error_handler` does). -/
def mentionsDuration : LogMsg → Bool
  | LogMsg.doneMsg _ _ => true
  | _ => false

/-- A filesystem path, split as the directory part (`Path(p).parent` in the
source) and the file name. -/
structure FPath where
  dir : String
  file : String
deriving DecidableEq

/-- A filesystem operation a step performs: `Path(p).parent.mkdir(parents=True,
exist_ok=True)` or a file write (`to_csv`, `open(...).write`, `pickle.dump`,
`json.dump`). -/
inductive FsOp
  | mkdirParents (dir : String)
  | writeFile (p : FPath)
deriving DecidableEq

/-- Whether every write in the trace is preceded by creation of its destination
directory; `made` accumulates the directories created so far. -/
def writesGuardedB : List String → List FsOp → Bool
  | _, [] => true
  | made, FsOp.mkdirParents d :: rest => writesGuardedB (d :: made) rest
  | made, FsOp.writeFile p :: rest =>
      made.any (fun d => d == p.dir) && writesGuardedB made rest

/-- Writes of the full tier of `generate_synthetic_data` (lines 398-403):
mkdir, then `to_csv`. -/
def generate_full_writes (out : FPath) : List FsOp :=
  [FsOp.mkdirParents out.dir, FsOp.writeFile out]

/-- Writes of the mock tier of `generate_synthetic_data` (lines 428-431):
mkdir, then `json.dump`. -/
def generate_mock_writes (out : FPath) : List FsOp :=
  [FsOp.mkdirParents out.dir, FsOp.writeFile out]

/-- Writes of the full tier of the five-parameter `preprocess_data`
(lines 545-576): the loop saves train, validation and test, each after a
mkdir, then the scaler after a mkdir. -/
def preprocess_shadowed_full_writes (train val test scaler : FPath) : List FsOp :=
  [FsOp.mkdirParents train.dir, FsOp.writeFile train,
   FsOp.mkdirParents val.dir, FsOp.writeFile val,
   FsOp.mkdirParents test.dir, FsOp.writeFile test,
   FsOp.mkdirParents scaler.dir, FsOp.writeFile scaler]

/-- Writes of the mock tier of the five-parameter `preprocess_data`
(lines 592-596): the loop runs over train, validation, test, scaler, each
write after a mkdir. -/
def preprocess_shadowed_mock_writes (train val test scaler : FPath) : List FsOp :=
  [FsOp.mkdirParents train.dir, FsOp.writeFile train,
   FsOp.mkdirParents val.dir, FsOp.writeFile val,
   FsOp.mkdirParents test.dir, FsOp.writeFile test,
   FsOp.mkdirParents scaler.dir, FsOp.writeFile scaler]

/-- Writes of the module-scope `preprocess_data` (lines 671-677): train and
test `to_csv` and the scaler pickle, with no directory creation. -/
def preprocess_data_writes (train test scaler : FPath) : List FsOp :=
  [FsOp.writeFile train, FsOp.writeFile test, FsOp.writeFile scaler]

/-- Writes of `train_model` (lines 748-760): the model pickle and the metrics
JSON, with no directory creation. -/
def train_model_writes (model metrics : FPath) : List FsOp :=
  [FsOp.writeFile model, FsOp.writeFile metrics]

/-- Writes of `evaluate_model` (lines 806-807): the evaluation JSON, with no
directory creation. -/
def evaluate_model_writes (evaluation : FPath) : List FsOp :=
  [FsOp.writeFile evaluation]

/-- The Python exceptions the embedded steps can raise. -/
inductive PyError
  | importError (module : String)
  | keyError (key : String)
  | valueError (msg : String)
  | indexError
  | connectionError (target : String)
deriving DecidableEq

/-- What a step reads back from a tabular artifact, as far as the steps
branch on it: its row count, whether the target column therapy_category is
present (its absence raises at `df.drop`, line 647/705/780), and whether every
retained feature column is numeric (a non-numeric column makes
`StandardScaler.fit` or `model.fit` raise a ValueError). -/
structure TableMeta where
  n_rows : Nat
  hasTherapyCategory : Bool
  allFeatureColumnsNumeric : Bool
deriving DecidableEq

/-- Ceiling of `n * num / den`: sklearn's `train_test_split` gives the test
side `ceil(n * test_size)` rows; the configured fractions 0.2 and 0.125 are
the rationals 1/5 and 1/8. -/
def ceilMul (n num den : Nat) : Nat := (n * num + den - 1) / den

/-- The result and the filesystem trace of one step invocation. -/
structure StepOut (A : Type) where
  writes : List FsOp
  result : Except PyError A

/-- The hardcoded feature-name list of the full tier of
`generate_synthetic_data` (lines 356-360). -/
def feature_names : List String :=
  ["tempo_bpm", "energy_level", "valence_score", "danceability",
   "acousticness", "instrumentalness", "liveness_factor",
   "speechiness", "loudness_db", "duration_seconds"]

/-- The stage of the full tier of `generate_synthetic_data` at which a
configuration can fail: `make_classification` (line 343), the
feature-normalisation loop (lines 378-383), `pd.DataFrame` construction
(line 386), or the therapy-category label mapping (lines 389-390). -/
inductive GenStage
  | makeClassification
  | normalizeLoop
  | dataFrameConstruction
  | labelMapping
deriving DecidableEq

/-- The staged outcome of the full tier of `generate_synthetic_data`, the
stages in the execution order of the source. `make_classification` is called
with `n_informative=8` and `n_redundant=2` hardcoded and raises a ValueError
unless `8 + 2 <= n_features`, and unless `n_classes * n_clusters_per_class
<= 2 ** n_informative`, that is `n_classes <= 256`; for `n_classes = 0` it
raises inside its class-weight computation (`[1.0 / n_classes] * n_classes`).
The normalisation loop reads `X_normalized[:, i].min()` for columns 0..9 of
the generated array: for `n_samples = 0` the reduction over an empty column
raises a ValueError (the IndexError it would raise for `n_features < 10` is
shielded by the `make_classification` constraint, which fires first).
`pd.DataFrame(X_normalized, columns=feature_names)` raises a ValueError
unless the array has exactly `feature_names.length = 10` columns. The label
mapping `[therapy_categories[label] for label in y]` looks every generated
label up in the hardcoded dict with keys 0, 1, 2 and raises a KeyError as
soon as a label of 3 or more occurs: `make_classification` allocates at
least one sample to every class `k < min(n_samples, n_classes)`, so for
`4 <= n_classes` and `4 <= n_samples` a label of 3 is guaranteed and the
step raises. The 1 percent seeded label-flip noise (`flip_y=0.01`) is not
modelled: under this model the labels are the cluster-allocation labels, so
in the region `4 <= n_classes` with `n_samples <= 3` — where only a flip
draw could produce a label above 2 — the model returns success, and no
theorem below relies on that region. Flips never matter for
`n_classes <= 3`, where every flipped label is also below 3. On success the
step returns `(len(df), len(feature_names))` (line 415). -/
def generate_full_result (n_samples n_features n_classes : Nat) :
    Except GenStage (Nat × Nat) :=
  if n_features < 10 then Except.error GenStage.makeClassification
  else if 256 < n_classes then Except.error GenStage.makeClassification
  else if n_classes = 0 then Except.error GenStage.makeClassification
  else if n_samples = 0 then Except.error GenStage.normalizeLoop
  else if n_features ≠ feature_names.length then Except.error GenStage.dataFrameConstruction
  else if 4 ≤ n_classes ∧ 4 ≤ n_samples then Except.error GenStage.labelMapping
  else Except.ok (n_samples, feature_names.length)

/-- The feature-count component of a successful full-tier generation. -/
def resultFeatures : Except GenStage (Nat × Nat) → Option Nat
  | Except.ok r => some r.2
  | Except.error _ => none

/-- The stage a failed full-tier generation failed at. -/
def errStage : Except GenStage (Nat × Nat) → Option GenStage
  | Except.ok _ => none
  | Except.error s => some s

/-- Whether a full-tier generation failed at `pd.DataFrame` construction. -/
def isDataFrameStageError : Except GenStage (Nat × Nat) → Bool
  | Except.error GenStage.dataFrameConstruction => true
  | _ => false

/-- The exception each generation stage raises: ValueErrors from
`make_classification`, from the empty-column reduction of the normalisation
loop and from `pd.DataFrame`, and the KeyError of the therapy-category label
mapping (the missing dict key is the first generated label above 2). -/
def stageToPyError : GenStage → PyError
  | GenStage.makeClassification => PyError.valueError "make_classification constraints violated"
  | GenStage.normalizeLoop => PyError.valueError "zero-size array to reduction operation minimum"
  | GenStage.dataFrameConstruction => PyError.valueError "columns passed do not match data shape"
  | GenStage.labelMapping => PyError.keyError "label outside therapy_categories"

/-- The step `generate_synthetic_data` (lines 331-433). Full tier when pandas
and sklearn are both available (line 337); in that tier any stage failure
occurs before the mkdir and the write of line 399-403. The mock tier writes
the JSON placeholder after a mkdir and returns the configured sample and
feature counts (lines 421-433); it never raises. -/
def generate_synthetic_data (deps : Deps) (n_samples n_features n_classes : Nat)
    (output_data_path : FPath) : StepOut (Nat × Nat) :=
  if deps.pandas && deps.sklearn then
    match generate_full_result n_samples n_features n_classes with
    | Except.error st => { writes := [], result := Except.error (stageToPyError st) }
    | Except.ok r =>
        { writes := generate_full_writes output_data_path, result := Except.ok r }
  else
    { writes := generate_mock_writes output_data_path,
      result := Except.ok (n_samples, n_features) }

/-- The module-scope `preprocess_data`, the second definition (lines 630-679),
which rebinds the name and is the one in effect. It takes four path
parameters (no validation split), imports pandas and then sklearn
unconditionally (lines 638-641), drops the target column (KeyError when it is
absent), splits with `test_size=0.2`, fits the scaler (ValueError when a
feature column is not numeric), writes train, test and the scaler with no
mkdir, and returns the pair `(len(train_df), len(test_df))`. It has no
degraded tier. -/
def preprocess_data (deps : Deps) (input : TableMeta)
    (train_data_path test_data_path scaler_path : FPath) : StepOut (Nat × Nat) :=
  if !deps.pandas then { writes := [], result := Except.error (PyError.importError "pandas") }
  else if !deps.sklearn then { writes := [], result := Except.error (PyError.importError "sklearn") }
  else if !input.hasTherapyCategory then
    { writes := [], result := Except.error (PyError.keyError "therapy_category") }
  else if !input.allFeatureColumnsNumeric then
    { writes := [], result := Except.error (PyError.valueError "could not convert string to float") }
  else
    let n_test := ceilMul input.n_rows 1 5
    let n_train := input.n_rows - n_test
    { writes := preprocess_data_writes train_data_path test_data_path scaler_path,
      result := Except.ok (n_train, n_test) }

/-- The first, shadowed `preprocess_data` definition (lines 437-598), with
five path parameters. Full tier when pandas and sklearn are both available
(line 447): raises a ValueError when the target column is missing (line 480),
splits test off with `test_size=0.2` and validation off the remainder with
adjusted fraction `0.1 / 0.8 = 1/8` (lines 499-514), writes each split and
the scaler after a mkdir, and returns the triple of split sizes (line 584).
Mock tier: writes the four placeholders after mkdirs and returns the fixed
tuple `(800, 100, 100)` (lines 588-598). Feature engineering, median fill and
stratification internals do not affect these outputs and are not modelled. -/
def preprocess_data_shadowed (deps : Deps) (input : TableMeta)
    (train_data_path test_data_path validation_data_path scaler_path : FPath) :
    StepOut (Nat × Nat × Nat) :=
  if deps.pandas && deps.sklearn then
    if !input.hasTherapyCategory then
      { writes := [],
        result := Except.error (PyError.valueError "Target column therapy_category not found in dataset") }
    else
      let n_test := ceilMul input.n_rows 1 5
      let n_temp := input.n_rows - n_test
      let n_val := ceilMul n_temp 1 8
      let n_train := n_temp - n_val
      { writes := preprocess_shadowed_full_writes
          train_data_path validation_data_path test_data_path scaler_path,
        result := Except.ok (n_train, n_val, n_test) }
  else
    { writes := preprocess_shadowed_mock_writes
        train_data_path validation_data_path test_data_path scaler_path,
      result := Except.ok (800, 100, 100) }

/-- The step `train_model` (lines 682-762). The body imports pandas, then
mlflow, then sklearn, unconditionally (lines 692-697) — a missing module
raises an ImportError out of the step. It then calls
`mlflow.set_tracking_uri` and `mlflow.set_experiment` (lines 700-701); the
latter contacts the tracking server, so an unreachable service raises there,
before the data is even read. There is no try/except around any of this.
`runId` is the identifier the tracking service assigns to the run
(`run.info.run_id`), `trainAccuracy` the accuracy the fitted random forest
scores on the training data (classifier internals are out of scope); on
success the step writes the model pickle and the metrics JSON with no mkdir
and returns `(accuracy, run.info.run_id)` (line 762). -/
def train_model (deps : Deps) (trackingServiceOk : Bool) (runId : String)
    (trainAccuracy : ℚ) (train_df : TableMeta) (model_path metrics_path : FPath) :
    StepOut (ℚ × String) :=
  if !deps.pandas then { writes := [], result := Except.error (PyError.importError "pandas") }
  else if !deps.mlflow then { writes := [], result := Except.error (PyError.importError "mlflow") }
  else if !deps.sklearn then { writes := [], result := Except.error (PyError.importError "sklearn") }
  else if !trackingServiceOk then
    { writes := [], result := Except.error (PyError.connectionError "mlflow-service.mlflow:5000") }
  else if !train_df.hasTherapyCategory then
    { writes := [], result := Except.error (PyError.keyError "therapy_category") }
  else if !train_df.allFeatureColumnsNumeric then
    { writes := [], result := Except.error (PyError.valueError "could not convert string to float") }
  else
    { writes := train_model_writes model_path metrics_path,
      result := Except.ok (trainAccuracy, runId) }

/-- The step `evaluate_model` (lines 765-809). The body imports pandas, then
mlflow, then sklearn, unconditionally (lines 772-776), reads the test data
and the model, predicts and scores (`testAccuracy`, `testPrecision`
abstract the classifier), then starts an mlflow run with no try/except
(lines 794-797) — an unreachable tracking service raises there — and finally
writes the evaluation JSON with no mkdir (lines 806-807). -/
def evaluate_model (deps : Deps) (trackingServiceOk : Bool)
    (testAccuracy testPrecision : ℚ) (test_df : TableMeta) (evaluation_path : FPath) :
    StepOut (ℚ × ℚ) :=
  if !deps.pandas then { writes := [], result := Except.error (PyError.importError "pandas") }
  else if !deps.mlflow then { writes := [], result := Except.error (PyError.importError "mlflow") }
  else if !deps.sklearn then { writes := [], result := Except.error (PyError.importError "sklearn") }
  else if !test_df.hasTherapyCategory then
    { writes := [], result := Except.error (PyError.keyError "therapy_category") }
  else if !test_df.allFeatureColumnsNumeric then
    { writes := [], result := Except.error (PyError.valueError "could not convert string to float") }
  else if !trackingServiceOk then
    { writes := [], result := Except.error (PyError.connectionError "mlflow-service.mlflow:5000") }
  else
    { writes := evaluate_model_writes evaluation_path,
      result := Except.ok (testAccuracy, testPrecision) }

/-- An execution tier of a step. -/
inductive Tier
  | full
  | degraded
deriving DecidableEq

/-- The tier branch of `generate_synthetic_data` (line 337): full iff pandas
and sklearn are both available. -/
def generate_tier (deps : Deps) : Tier :=
  if deps.pandas && deps.sklearn then Tier.full else Tier.degraded

/-- The tier branch of the shadowed five-parameter `preprocess_data`
(line 447): full iff pandas and sklearn are both available. -/
def preprocess_shadowed_tier (deps : Deps) : Tier :=
  if deps.pandas && deps.sklearn then Tier.full else Tier.degraded

/-- The state the pipeline graph has reached: each state is reachable only
from its immediate predecessor. -/
inductive PipeState
  | started
  | generated
  | preprocessed
  | trained
  | evaluated
deriving DecidableEq

/-- The outcome of one end-to-end run: everything written, the last state
reached, and the exception that aborted the run, if one did. -/
structure RunOutcome where
  writes : List FsOp
  finalState : PipeState
  error : Option PyError
deriving DecidableEq

/-- The pipeline graph `music_therapy_pipeline` (lines 812-848): generate,
then the module-scope `preprocess_data`, then `train_model`, then
`evaluate_model`, each step starting only after its predecessor succeeded,
and the whole run aborting on the first exception. The steps hand artifacts
over by path only; `rawMeta`, `trainMeta` and `testMeta` are what the
consuming steps read back from the persisted artifacts. -/
def music_therapy_pipeline (deps : Deps) (trackingServiceOk : Bool)
    (n_samples n_features n_classes : Nat)
    (rawMeta trainMeta testMeta : TableMeta)
    (runId : String) (trainAccuracy testAccuracy testPrecision : ℚ)
    (raw train test scaler model metrics evaluation : FPath) : RunOutcome :=
  let g := generate_synthetic_data deps n_samples n_features n_classes raw
  match g.result with
  | Except.error e => { writes := g.writes, finalState := PipeState.started, error := some e }
  | Except.ok _ =>
    let p := preprocess_data deps rawMeta train test scaler
    match p.result with
    | Except.error e =>
        { writes := g.writes ++ p.writes, finalState := PipeState.generated, error := some e }
    | Except.ok _ =>
      let t := train_model deps trackingServiceOk runId trainAccuracy trainMeta model metrics
      match t.result with
      | Except.error e =>
          { writes := g.writes ++ p.writes ++ t.writes,
            finalState := PipeState.preprocessed, error := some e }
      | Except.ok _ =>
        let ev := evaluate_model deps trackingServiceOk testAccuracy testPrecision
          testMeta evaluation
        match ev.result with
        | Except.error e =>
            { writes := g.writes ++ p.writes ++ t.writes ++ ev.writes,
              finalState := PipeState.trained, error := some e }
        | Except.ok _ =>
            { writes := g.writes ++ p.writes ++ t.writes ++ ev.writes,
              finalState := PipeState.evaluated, error := none }

/-- A dataset split. -/
inductive Split
  | train
  | validation
  | test
deriving DecidableEq

/-- An operation on the StandardScaler object: `fit` (also the first half of
`fit_transform`) re-derives the fitted parameters from the given split;
`transform` scales the given split using the current parameters and, per
sklearn semantics, does not touch them. -/
inductive ScalerOp
  | fit (s : Split)
  | transform (s : Split)
deriving DecidableEq

/-- The scaler operations of the full tier of the shadowed five-parameter
`preprocess_data`, in source order (lines 516-520): `fit_transform` on the
train split, then `transform` on validation, then `transform` on test. -/
def preprocess_shadowed_scaler_ops : List ScalerOp :=
  [ScalerOp.fit Split.train, ScalerOp.transform Split.train,
   ScalerOp.transform Split.validation, ScalerOp.transform Split.test]

/-- The scaler operations of the module-scope `preprocess_data`, in source
order (lines 656-658): `fit_transform` on the train split, then `transform`
on test. No validation split exists in this definition. -/
def preprocess_data_scaler_ops : List ScalerOp :=
  [ScalerOp.fit Split.train, ScalerOp.transform Split.train,
   ScalerOp.transform Split.test]

/-- The fitted parameters (identified by the split they were derived from)
after running a list of scaler operations: `fit` replaces them, `transform`
leaves them unchanged. -/
def scalerParamsAfter : Option Split → List ScalerOp → Option Split
  | st, [] => st
  | _, ScalerOp.fit s :: rest => scalerParamsAfter (some s) rest
  | st, ScalerOp.transform _ :: rest => scalerParamsAfter st rest

/-- Whether a scaler operation is a fit (or the fit half of `fit_transform`). -/
def isFit : ScalerOp → Bool
  | ScalerOp.fit _ => true
  | ScalerOp.transform _ => false

/-- Whether a scaler operation touches the given split. -/
def touchesSplit (s : Split) : ScalerOp → Bool
  | ScalerOp.fit t => t == s
  | ScalerOp.transform t => t == s

/-- Claim C5: for every input dataset, the quality report satisfies: status is
warning iff the issues list is non-empty, status is skipped exactly when the
tabular engine (pandas) is absent, and status is passed exactly when the
engine is present and the issues list is empty; the gate is a total function
and returns in every case. -/
theorem claim_C5_quality_report_invariant (pandasAvailable : Bool) (df : DataFrameMeta) :
    (((validate_data_quality pandasAvailable df).status = QStatus.warning) ↔
      ((validate_data_quality pandasAvailable df).issues.isEmpty = false)) ∧
    (((validate_data_quality pandasAvailable df).status = QStatus.skipped) ↔
      pandasAvailable = false) ∧
    (((validate_data_quality pandasAvailable df).status = QStatus.passed) ↔
      (pandasAvailable = true ∧ (validate_data_quality pandasAvailable df).issues.isEmpty = true)) := by
  cases pandasAvailable <;> simp only [validate_data_quality] <;> split_ifs <;> simp_all

/-- Claim C6: with the tabular engine available, the quality gate flags issues
in the fixed order missing values, then duplicate rows, then low sample count
with threshold strictly below 100 rows; consequently a dataset passes with an
empty issue list exactly when it has zero missing values, zero duplicate rows
and at least 100 rows. -/
theorem claim_C6_quality_issue_order (df : DataFrameMeta) :
    ((validate_data_quality true df).issues =
      (if 0 < df.missing_values then ["Missing values: " ++ toString df.missing_values] else []) ++
      (if 0 < df.duplicate_rows then ["Duplicate rows: " ++ toString df.duplicate_rows] else []) ++
      (if df.n_rows < 100 then ["Low sample count: " ++ toString df.n_rows] else [])) ∧
    (((validate_data_quality true df).status = QStatus.passed ∧
        (validate_data_quality true df).issues = []) ↔
      (df.missing_values = 0 ∧ df.duplicate_rows = 0 ∧ 100 ≤ df.n_rows)) := by
  simp only [validate_data_quality]
  split_ifs <;> simp_all <;> omega

/-- Claim C7 counterexample: at the concrete failing step body (step name
Data Generation, exception boom, 5 seconds elapsed before the failure), the
step executor re-raises the exception, but no log line of the failure path
carries an elapsed duration — the failure context logged is the step name and
the exception detail only, so the claim that the failure log includes the
elapsed time is false. -/
theorem claim_C7_counterexample :
    ((error_handler "Data Generation" 5 (Except.error "boom" : Except String Nat)).1.filter
        mentionsDuration = []) ∧
    ((error_handler "Data Generation" 5 (Except.error "boom" : Except String Nat)).1 =
      [LogMsg.startMsg "Data Generation", LogMsg.failMsg "Data Generation" "boom",
       LogMsg.tracebackMsg]) ∧
    ((error_handler "Data Generation" 5 (Except.error "boom" : Except String Nat)).2 =
      Except.error "boom") :=
  ⟨rfl, rfl, rfl⟩

/-- Claim C7 (amended): for every step body and every exception raised inside
it, the step executor re-raises that exact exception unchanged — the outcome
the caller observes equals the body outcome — after logging failure context
that includes the step name and the exception detail; the elapsed duration is
interpolated only into the success log line. -/
theorem claim_C7_reraise_unchanged {A : Type} (step : String) (elapsed : Nat)
    (body : Except String A) :
    ((error_handler step elapsed body).2 = body) ∧
    (∀ e : String, body = Except.error e →
      (error_handler step elapsed body).1 =
        [LogMsg.startMsg step, LogMsg.failMsg step e, LogMsg.tracebackMsg]) := by
  cases body <;> simp [error_handler]

/-- Claim C8 counterexample: the writes of `train_model` — the model pickle
and the metrics JSON — are preceded by no directory creation at all, so the
claim that every artifact write is preceded by creation of the destination
directory is false at these concrete paths. -/
theorem claim_C8_counterexample :
    writesGuardedB []
      (train_model_writes (FPath.mk "models" "model.pkl")
        (FPath.mk "metrics" "metrics.json")) = false ∧
    writesGuardedB []
      (preprocess_data_writes (FPath.mk "data" "train.csv") (FPath.mk "data" "test.csv")
        (FPath.mk "models" "scaler.pkl")) = false ∧
    writesGuardedB [] (evaluate_model_writes (FPath.mk "metrics" "evaluation.json")) = false :=
  ⟨rfl, rfl, rfl⟩

/-- Claim C8 (amended): every artifact write performed by
`generate_synthetic_data` (either tier) and by the shadowed five-parameter
`preprocess_data` (either tier) is preceded by idempotent, parents-included
creation of its destination directory; the writes of the module-scope
`preprocess_data`, of `train_model` and of `evaluate_model` are not preceded
by any directory creation. -/
theorem claim_C8_writes_guarded (out train val test scaler : FPath) :
    writesGuardedB [] (generate_full_writes out) = true ∧
    writesGuardedB [] (generate_mock_writes out) = true ∧
    writesGuardedB [] (preprocess_shadowed_full_writes train val test scaler) = true ∧
    writesGuardedB [] (preprocess_shadowed_mock_writes train val test scaler) = true := by
  simp [writesGuardedB, generate_full_writes, generate_mock_writes,
    preprocess_shadowed_full_writes, preprocess_shadowed_mock_writes]

/-- Claim C10 counterexample: at the concrete configuration n_samples 1000,
n_features 5, n_classes 3, the full-tier generation fails inside
`make_classification` (its hardcoded n_informative 8 plus n_redundant 2
exceed 5 features), not at DataFrame construction, so the claim that every
configured feature count different from 10 fails at DataFrame construction
is false. -/
theorem claim_C10_counterexample :
    generate_full_result 1000 5 3 = Except.error GenStage.makeClassification ∧
    isDataFrameStageError (generate_full_result 1000 5 3) = false :=
  ⟨rfl, rfl⟩

/-- Claim C10 (amended): in full tier, for at least one sample and a
configured class count in the mapped range 1..3 (the default is 3), the
feature-count component returned by `generate_synthetic_data` equals 10, the
length of the hardcoded feature-name list, whenever the step returns at all —
which in that class range happens exactly for n_features = 10; for
configured n_features greater than 10 the step fails at DataFrame
construction; for n_features less than 10 it fails earlier, inside
`make_classification`, before DataFrame construction is reached. For a class
count of 4 up to the hardcoded bound 256 and at least 4 samples the step
does not return even at n_features = 10: a generated label of 3 or more is
guaranteed and the therapy-category label mapping raises a KeyError after
DataFrame construction. -/
theorem claim_C10_feature_count (ns nf ncls : Nat) (h : 1 ≤ ns) :
    feature_names.length = 10 ∧
    (1 ≤ ncls ∧ ncls ≤ 3 →
      resultFeatures (generate_full_result ns nf ncls) =
        (if nf = 10 then some 10 else none) ∧
      errStage (generate_full_result ns nf ncls) =
        (if nf < 10 then some GenStage.makeClassification
         else if nf = 10 then none
         else some GenStage.dataFrameConstruction)) ∧
    (4 ≤ ncls ∧ ncls ≤ 256 ∧ 4 ≤ ns ∧ nf = 10 →
      generate_full_result ns nf ncls = Except.error GenStage.labelMapping) := by
  refine ⟨rfl, fun hc => ?_, fun hk => ?_⟩ <;>
    · simp only [generate_full_result, feature_names]
      split_ifs <;> simp_all [resultFeatures, errStage, List.length] <;> omega

/-- Claim C10 witness: the amended theorem applied at the concrete
configuration n_samples 1000, n_features 12, n_classes 3. -/
theorem claim_C10_witness :
    (1 ≤ 1000) ∧
    (feature_names.length = 10 ∧
      (1 ≤ 3 ∧ 3 ≤ 3 →
        resultFeatures (generate_full_result 1000 12 3) =
          (if 12 = 10 then some 10 else none) ∧
        errStage (generate_full_result 1000 12 3) =
          (if 12 < 10 then some GenStage.makeClassification
           else if 12 = 10 then none
           else some GenStage.dataFrameConstruction)) ∧
      (4 ≤ 3 ∧ 3 ≤ 256 ∧ 4 ≤ 1000 ∧ 12 = 10 →
        generate_full_result 1000 12 3 = Except.error GenStage.labelMapping)) :=
  ⟨by decide, claim_C10_feature_count 1000 12 3 (by decide)⟩

/-- Claim C1: with the tabular and classical-ML engines unavailable (mlflow
also absent, the cluster SDK present), the run does not reach the evaluated
state: generate writes its mock placeholder, but the module-scope
`preprocess_data` raises ImportError on pandas before writing anything, and
the run aborts in the generated state — contradicting the claim that every
step writes a placeholder and the pipeline reaches evaluated without
raising. -/
theorem claim_C1_degraded_run_aborts :
    music_therapy_pipeline (Deps.mk false false false false true) true 1000 10 3
        (TableMeta.mk 1000 true true) (TableMeta.mk 800 true true) (TableMeta.mk 200 true true)
        "run-0" 1 1 1
        (FPath.mk "data" "raw.json") (FPath.mk "data" "train.csv") (FPath.mk "data" "test.csv")
        (FPath.mk "models" "scaler.pkl") (FPath.mk "models" "model.pkl")
        (FPath.mk "metrics" "metrics.json") (FPath.mk "metrics" "evaluation.json") =
      RunOutcome.mk [FsOp.mkdirParents "data", FsOp.writeFile (FPath.mk "data" "raw.json")]
        PipeState.generated (some (PyError.importError "pandas")) :=
  rfl

/-- Claim C2: the `preprocess_data` in effect at module scope (the second
definition) raises ImportError on pandas when the engines are absent instead
of returning the fixed mock tuple, and in full tier on 1000 rows returns the
pair (800, 200) — two split sizes, not the claimed triple; the (800, 100,
100) triple is returned only by the shadowed five-parameter definition. -/
theorem claim_C2_preprocess_shape :
    (preprocess_data (Deps.mk false false false false true) (TableMeta.mk 1000 true true)
        (FPath.mk "data" "train.csv") (FPath.mk "data" "test.csv")
        (FPath.mk "models" "scaler.pkl")).result = Except.error (PyError.importError "pandas") ∧
    (preprocess_data (Deps.mk true true true true true) (TableMeta.mk 1000 true true)
        (FPath.mk "data" "train.csv") (FPath.mk "data" "test.csv")
        (FPath.mk "models" "scaler.pkl")).result = Except.ok (800, 200) ∧
    (preprocess_data_shadowed (Deps.mk false false false false true) (TableMeta.mk 1000 true true)
        (FPath.mk "data" "train.csv") (FPath.mk "data" "test.csv")
        (FPath.mk "data" "validation.csv") (FPath.mk "models" "scaler.pkl")).result =
      Except.ok (800, 100, 100) :=
  ⟨rfl, rfl, rfl⟩

/-- Claim C3: tracking-service failure is not isolated in `train_model`. With
pandas and sklearn available but the mlflow module absent, the step raises
ImportError out of its body; with the module present but the tracking service
unreachable, `mlflow.set_experiment` raises a connection error out of the
body. In neither case does the step return an accuracy or run identifier,
for every training input and every would-be accuracy and run id. -/
theorem claim_C3_tracking_failure_raises (runId : String) (acc : ℚ) (df : TableMeta)
    (model_path metrics_path : FPath) :
    (train_model (Deps.mk false true true true true) true runId acc df
        model_path metrics_path).result = Except.error (PyError.importError "mlflow") ∧
    (train_model (Deps.mk true true true true true) false runId acc df
        model_path metrics_path).result =
      Except.error (PyError.connectionError "mlflow-service.mlflow:5000") :=
  ⟨rfl, rfl⟩

/-- Claim C4: the tier branches that exist (generate and the shadowed
preprocess) ignore the tracking service and cluster SDK, but `train_model`
has no tier branch at all: in the registry with pandas, numpy and sklearn
available and mlflow absent — where every correctness capability of the
train step is present and generate resolves to full tier — the train step
raises ImportError instead of executing in any tier, so tracking-service
availability does gate whether the step executes. -/
theorem claim_C4_tracking_gates_train :
    (∀ d : Deps, ∀ b b2 : Bool,
      generate_tier { d with mlflow := b, kfp := b2 } = generate_tier d ∧
      preprocess_shadowed_tier { d with mlflow := b, kfp := b2 } = preprocess_shadowed_tier d) ∧
    generate_tier (Deps.mk false true true true true) = Tier.full ∧
    (train_model (Deps.mk false true true true true) true "run-0" 1 (TableMeta.mk 800 true true)
        (FPath.mk "models" "model.pkl") (FPath.mk "metrics" "metrics.json")).result =
      Except.error (PyError.importError "mlflow") :=
  ⟨fun _ _ _ => ⟨rfl, rfl⟩, rfl, rfl⟩

/-- Claim C9: in both preprocess definitions the scaler is fitted exactly
once, on the train split, and the transforms that follow leave the fitted
parameters unchanged (the parameters after the whole operation sequence are
still the ones derived from the train split); but the operation sequence of
the module-scope `preprocess_data` contains no operation on a validation
split at all — only the shadowed five-parameter definition applies the
fitted scaler to validation data. -/
theorem claim_C9_scaler_fit_once_no_validation :
    preprocess_data_scaler_ops.filter isFit = [ScalerOp.fit Split.train] ∧
    preprocess_data_scaler_ops.filter (touchesSplit Split.validation) = [] ∧
    scalerParamsAfter none preprocess_data_scaler_ops = some Split.train ∧
    preprocess_shadowed_scaler_ops.filter isFit = [ScalerOp.fit Split.train] ∧
    preprocess_shadowed_scaler_ops.filter (touchesSplit Split.validation) =
      [ScalerOp.transform Split.validation] ∧
    scalerParamsAfter none preprocess_shadowed_scaler_ops = some Split.train := by
  decide
